import Mathlib

/-!
Shallow embedding of the transaction-request / transaction-construction /
broadcast core of a browser-extension wallet.

The embedded source functions are `getPostConditions`, `generateContractCallTx`,
`generateContractDeployTx`, `generateSTXTransferTx`, `generateTransaction`,
`finishTransaction`, `getTransactionVersionFromRequest` and `verifyTxRequest`
from the transaction module, and `getErrorMessage` / `useHandleSubmitTransaction`
from the submission hook.

External, trusted library functions (clarity-value and post-condition
deserialization, key derivation, signature verification, token decoding) are
modelled as parameters (`ExternalLib`, `CryptoOps`) so that theorems quantify
over every possible behaviour of the external library.

JavaScript-specific semantics carried over faithfully:
  * `Buffer.from(s, 'hex')` consumes pairs of hex digits and stops at the
    first invalid or incomplete pair (`bufferFromHex`);
  * `String.prototype.replace(pat, '')` with a string pattern removes only
    the FIRST occurrence (`jsReplaceFirst`);
  * truthiness tests: `postCondition.amount` is falsy for the number 0 and
    the empty string (`PCAmount.truthy`), `response.error` is falsy for the
    empty string, `txData.network?.getTransferFeeEstimateApiUrl` is falsy
    when `network` is absent or the capability is missing.
-/

/-! ### Bytes and hex helpers -/

/-- Value of one hex digit character, `none` for a non-hex character. -/
def hexDigitVal (c : Char) : Option Nat :=
  if '0' ≤ c ∧ c ≤ '9' then some (c.toNat - 48)
  else if 'a' ≤ c ∧ c ≤ 'f' then some (c.toNat - 87)
  else if 'A' ≤ c ∧ c ≤ 'F' then some (c.toNat - 55)
  else none

/-- JS `Buffer.from(s, 'hex')` on a list of characters: decode pairs of hex
digits, stopping at the first invalid or incomplete pair. -/
def bufferFromHexChars : List Char → List Nat
  | c1 :: c2 :: rest =>
    match hexDigitVal c1, hexDigitVal c2 with
    | some hi, some lo => (16 * hi + lo) :: bufferFromHexChars rest
    | _, _ => []
  | _ => []

/-- JS `Buffer.from(s, 'hex')`. -/
def bufferFromHex (s : String) : List Nat :=
  bufferFromHexChars s.data

/-- Lower-case hex character for a value `< 16`. -/
def hexChar (n : Nat) : Char :=
  if n < 10 then Char.ofNat (48 + n) else Char.ofNat (87 + n)

/-- Two-character lower-case hex rendering of one byte. -/
def byteToHex (b : Nat) : String :=
  String.mk [hexChar (b / 16 % 16), hexChar (b % 16)]

/-- `buffer.toString('hex')`: lower-case hex rendering of a byte list. -/
def hexEncode (bytes : List Nat) : String :=
  String.join (bytes.map byteToHex)

/-- Remove the first occurrence of `target` from a character list. -/
def removeFirstChar (target : Char) : List Char → List Char
  | [] => []
  | c :: rest => if c = target then rest else c :: removeFirstChar target rest

/-- JS `s.replace(target, '')` with a single-character string pattern:
removes only the FIRST occurrence of `target`. -/
def jsReplaceFirst (s : String) (target : Char) : String :=
  String.mk (removeFirstChar target s.data)

/-! ### Network descriptors (`@stacks/network`, `TransactionVersion`) -/

/-- `TransactionVersion.Mainnet = 0x00`. -/
def TransactionVersion_Mainnet : Nat := 0

/-- `TransactionVersion.Testnet = 0x80`. -/
def TransactionVersion_Testnet : Nat := 128

/-- A network descriptor: version tag, whether it exposes the
`getTransferFeeEstimateApiUrl` capability (as a JS truthiness flag:
absent/undefined is `false`), and its core API URL (which distinguishes
the concrete default network objects). -/
structure Network where
  version : Nat
  hasFeeEstimateApi : Bool
  coreApiUrl : String
deriving DecidableEq, Repr

/-- The default `new StacksMainnet()` object: mainnet version tag,
fee-estimate capability present. -/
def StacksMainnet : Network :=
  { version := TransactionVersion_Mainnet
  , hasFeeEstimateApi := true
  , coreApiUrl := "https://stacks-node-api.mainnet.stacks.co" }

/-- The default `new StacksTestnet()` object: testnet version tag,
fee-estimate capability present. -/
def StacksTestnet : Network :=
  { version := TransactionVersion_Testnet
  , hasFeeEstimateApi := true
  , coreApiUrl := "https://stacks-node-api.testnet.stacks.co" }

/-! ### Post-conditions and amounts -/

/-- Runtime value of a post-condition `amount` field: a machine number, a
string, or a big-integer (`BN`) instance. -/
inductive PCAmount where
  | num (n : Nat)
  | str (s : String)
  | bn (i : Int)
deriving DecidableEq, Repr

/-- JS truthiness of an `amount` value: `0` and `""` are falsy; a `BN`
object is always truthy. -/
def PCAmount.truthy : PCAmount → Bool
  | .num n => n ≠ 0
  | .str s => s ≠ ""
  | .bn _ => true

/-- Natural-number value of a hex digit string, skipping non-hex characters
(models `bn.js` base-16 string parsing). -/
def hexStringToNat (s : String) : Nat :=
  s.data.foldl (fun acc c =>
    match hexDigitVal c with
    | some d => 16 * acc + d
    | none => acc) 0

/-- `new BN(v, 16)`: a string is parsed in base 16; `bn.js` ignores the base
argument for a number; a `BN` is copied. -/
def bnBase16 : PCAmount → Int
  | .num n => Int.ofNat n
  | .str s => Int.ofNat (hexStringToNat s)
  | .bn i => i

/-- A structured post-condition object: an optional `amount` field
(`none` = the field is absent) and the remaining fields, opaque here. -/
structure PostConditionObj where
  amount? : Option PCAmount
  rest : String
deriving DecidableEq, Repr

/-- One entry of a payload's `postConditions` array: either a hex-encoded
serialized string or a structured object. -/
inductive PostConditionEntry where
  | hexStr (s : String)
  | obj (pc : PostConditionObj)
deriving DecidableEq, Repr

/-- A binary reader over a byte buffer with a read offset. -/
structure BufferReader where
  buffer : List Nat
  offset : Nat
deriving DecidableEq, Repr

/-- `BufferReader.fromBuffer`: a reader positioned at offset 0. -/
def BufferReader.fromBuffer (b : List Nat) : BufferReader :=
  { buffer := b, offset := 0 }

/-- An opaque deserialized clarity value (produced by the external
`deserializeCV`). -/
inductive ClarityValue where
  | ofBytes (bytes : List Nat)
deriving DecidableEq, Repr

/-- The external serialization library (`@stacks/transactions`): theorems
quantify over every possible behaviour of these functions. -/
structure ExternalLib where
  deserializePostCondition : BufferReader → PostConditionObj
  deserializeCV : List Nat → ClarityValue

/-- Normalization of one post-condition entry, as performed by the body of
the `map` inside `getPostConditions`:
  * a hex string is decoded and deserialized via a reader at offset 0;
  * an object whose `amount` field is present and truthy has the amount
    replaced by `new BN(amount, 16)`;
  * any other object is returned unchanged. -/
def normalizePostCondition (lib : ExternalLib) : PostConditionEntry → PostConditionObj
  | .hexStr s => lib.deserializePostCondition (BufferReader.fromBuffer (bufferFromHex s))
  | .obj pc =>
    match pc.amount? with
    | some a => if a.truthy then { pc with amount? := some (.bn (bnBase16 a)) } else pc
    | none => pc

/-- `getPostConditions`: optional-chained `map` of the normalization over
the entries. -/
def getPostConditions (lib : ExternalLib) :
    Option (List PostConditionEntry) → Option (List PostConditionObj)
  | none => none
  | some pcs => some (pcs.map (normalizePostCondition lib))

/-! ### Transaction payloads (`@stacks/connect`) -/

/-- `TransactionTypes.ContractCall`. -/
def TransactionTypes_ContractCall : String := "contract_call"

/-- `TransactionTypes.ContractDeploy`. -/
def TransactionTypes_ContractDeploy : String := "smart_contract"

/-- `TransactionTypes.STXTransfer`. -/
def TransactionTypes_STXTransfer : String := "token_transfer"

/-- A wire-level transaction payload. All variant-specific fields are
present as plain fields (the TypeScript code casts the payload to the
variant selected by `txType`). -/
structure TransactionPayload where
  txType : String
  publicKey : String
  stxAddress : Option String
  network : Option Network
  contractName : String
  contractAddress : String
  functionName : String
  functionArgs : List String
  codeBody : String
  recipient : String
  amount : String
  memo : String
  postConditionMode : Option Nat
  postConditions : Option (List PostConditionEntry)
deriving DecidableEq, Repr

/-- Decimal-digit string parsing (models `new BN(amount)` in base 10),
skipping non-digit characters. -/
def decStringToNat (s : String) : Nat :=
  s.data.foldl (fun acc c =>
    if '0' ≤ c ∧ c ≤ '9' then 10 * acc + (c.toNat - 48) else acc) 0

/-- Arguments of a `makeContractCall` invocation. -/
structure ContractCallOptions where
  contractName : String
  contractAddress : String
  functionName : String
  senderKey : String
  functionArgs : List ClarityValue
  nonce : Option Int
  postConditionMode : Option Nat
  postConditions : Option (List PostConditionObj)
  network : Option Network
deriving DecidableEq, Repr

/-- Arguments of a `makeContractDeploy` invocation. -/
structure ContractDeployOptions where
  contractName : String
  codeBody : String
  senderKey : String
  nonce : Option Int
  postConditionMode : Option Nat
  postConditions : Option (List PostConditionObj)
  network : Option Network
deriving DecidableEq, Repr

/-- Arguments of a `makeSTXTokenTransfer` invocation. -/
structure STXTransferOptions where
  recipient : String
  memo : String
  senderKey : String
  amount : Int
  nonce : Option Int
  network : Option Network
deriving DecidableEq, Repr

/-- A built (signed) transaction, recording which external construction
path produced it and with which arguments. -/
inductive BuiltTx where
  | contractCall (opts : ContractCallOptions)
  | contractDeploy (opts : ContractDeployOptions)
  | stxTransfer (opts : STXTransferOptions)
deriving DecidableEq, Repr

/-- The network descriptor a built transaction was constructed with. -/
def BuiltTx.network : BuiltTx → Option Network
  | .contractCall o => o.network
  | .contractDeploy o => o.network
  | .stxTransfer o => o.network

/-- `generateContractCallTx`: deserializes each hex function argument and
invokes `makeContractCall`. -/
def generateContractCallTx (lib : ExternalLib) (txData : TransactionPayload)
    (senderKey : String) (nonce : Option Nat) : BuiltTx :=
  BuiltTx.contractCall
    { contractName := txData.contractName
    , contractAddress := txData.contractAddress
    , functionName := txData.functionName
    , senderKey := senderKey
    , functionArgs := txData.functionArgs.map (fun arg => lib.deserializeCV (bufferFromHex arg))
    , nonce := nonce.map Int.ofNat
    , postConditionMode := txData.postConditionMode
    , postConditions := getPostConditions lib txData.postConditions
    , network := txData.network }

/-- `generateContractDeployTx`: invokes `makeContractDeploy`. -/
def generateContractDeployTx (lib : ExternalLib) (txData : TransactionPayload)
    (senderKey : String) (nonce : Option Nat) : BuiltTx :=
  BuiltTx.contractDeploy
    { contractName := txData.contractName
    , codeBody := txData.codeBody
    , senderKey := senderKey
    , nonce := nonce.map Int.ofNat
    , postConditionMode := txData.postConditionMode
    , postConditions := getPostConditions lib txData.postConditions
    , network := txData.network }

/-- `generateSTXTransferTx`: invokes `makeSTXTokenTransfer` with the amount
parsed as `new BN(amount)`. -/
def generateSTXTransferTx (_lib : ExternalLib) (txData : TransactionPayload)
    (senderKey : String) (nonce : Option Nat) : BuiltTx :=
  BuiltTx.stxTransfer
    { recipient := txData.recipient
    , memo := txData.memo
    , senderKey := senderKey
    , amount := Int.ofNat (decStringToNat txData.amount)
    , nonce := nonce.map Int.ofNat
    , network := txData.network }

/-- JS truthiness of `txData.network?.getTransferFeeEstimateApiUrl`. -/
def networkFeeCapability : Option Network → Bool
  | some n => n.hasFeeEstimateApi
  | none => false

/-- The default network substituted by `generateTransaction`:
`StacksMainnet` exactly when `txData.network?.version ===
TransactionVersion.Mainnet`, otherwise `StacksTestnet`. -/
def defaultNetworkFor (network : Option Network) : Network :=
  if network.map Network.version = some TransactionVersion_Mainnet
  then StacksMainnet else StacksTestnet

/-- The network-resolution step at the top of `generateTransaction`: when
the payload's network lacks the fee-estimate capability (or is absent), a
default network object is substituted; otherwise the descriptor is kept. -/
def resolveNetwork (network : Option Network) : Option Network :=
  if networkFeeCapability network then network else some (defaultNetworkFor network)

/-- `generateTransaction`: network resolution followed by the `switch` on
`txData.txType`; an unrecognized tag leaves `tx` null and throws
`Invalid Transaction Type: <tag>`. -/
def generateTransaction (lib : ExternalLib) (txData0 : TransactionPayload)
    (senderKey : String) (nonce : Option Nat) : Except String BuiltTx :=
  let txData := { txData0 with network := resolveNetwork txData0.network }
  if txData.txType = TransactionTypes_ContractCall then
    .ok (generateContractCallTx lib txData senderKey nonce)
  else if txData.txType = TransactionTypes_ContractDeploy then
    .ok (generateContractDeployTx lib txData senderKey nonce)
  else if txData.txType = TransactionTypes_STXTransfer then
    .ok (generateSTXTransferTx lib txData senderKey nonce)
  else
    .error ("Invalid Transaction Type: " ++ txData.txType)

/-! ### Broadcaster (`finishTransaction`) -/

/-- A signed transaction: its canonical serialized byte form
(`tx.serialize()`). -/
structure StacksTransaction where
  serialized : List Nat
deriving DecidableEq, Repr

/-- The JSON value produced by `res.json()` on the broadcast response:
either a JSON string (a transaction id) or an object with optional
`error` and `reason` fields. -/
inductive JsonValue where
  | str (s : String)
  | obj (error : Option String) (reason : Option String)
deriving DecidableEq, Repr

/-- The broadcast endpoint's response: HTTP `ok` flag and parsed body. -/
structure RpcResponse where
  ok : Bool
  json : JsonValue
deriving DecidableEq, Repr

/-- The result returned to the caller on success. -/
structure FinishedTxPayload where
  txId : String
  txRaw : String
deriving DecidableEq, Repr

/-- JS `JSON.parse` restricted to a string-literal body without escape
sequences (models `res.json()` on a success body such as `"abc123"`):
strips the surrounding quotes. -/
def jsonParseStringBody (body : String) : Option String :=
  match body.data with
  | '"' :: rest =>
    if rest ≠ [] ∧ rest.getLast? = some '"' ∧ ¬ (rest.dropLast.contains '"')
    then some (String.mk rest.dropLast) else none
  | _ => none

/-- JS string interpolation of `response.reason`, which renders a missing
field as `undefined`. -/
def jsFieldToString : Option String → String
  | some s => s
  | none => "undefined"

/-- `finishTransaction`: serialize once; on `res.ok` return
`{txId := "0x" ++ txIdJson.replace('"',''), txRaw := "0x" ++ hex}`;
otherwise throw the composed `error - reason` message when `response.error`
is truthy, and a generic message otherwise. -/
def finishTransaction (tx : StacksTransaction) (res : RpcResponse) :
    Except String FinishedTxPayload :=
  let serialized := tx.serialized
  if res.ok then
    match res.json with
    | .str txIdJson =>
      .ok { txId := "0x" ++ jsReplaceFirst txIdJson '"'
          , txRaw := "0x" ++ hexEncode serialized }
    | .obj _ _ => .error "TypeError: txIdJson.replace is not a function"
  else
    match res.json with
    | .obj (some error) reason =>
      if error ≠ "" then .error (error ++ " - " ++ jsFieldToString reason)
      else .error "Unable to submit transaction"
    | _ => .error "Unable to submit transaction"

/-! ### Request verifier (`verifyTxRequest`) -/

/-- A wallet account: its STX private key and opaque base key material
from which app-scoped keys are derived. -/
structure Account where
  stxPrivateKey : String
  appsKeyMaterial : String
deriving DecidableEq, Repr

/-- A wallet: an ordered collection of accounts. -/
structure Wallet where
  accounts : List Account
deriving DecidableEq, Repr

/-- The external cryptography and token library (`@stacks/wallet-sdk`,
`@stacks/encryption`, `@stacks/transactions`, `jsontokens`): theorems
quantify over every possible behaviour of these functions.
`verifyES256k pk token` models `new TokenVerifier('ES256k', pk).verifyAsync(token)`
and `decodeTokenPayload` models `decodeToken(requestToken).payload`. -/
structure CryptoOps where
  getAppPrivateKey : Account → String → String
  getPublicKeyFromPrivate : String → String
  getAddressFromPrivateKey : String → Nat → String
  decodeTokenPayload : String → TransactionPayload
  verifyES256k : String → String → Bool

/-- `getTransactionVersionFromRequest`: Mainnet when the payload carries no
network; the declared version when it is one of the two recognized tags;
otherwise the `Invalid network version provided` error. -/
def getTransactionVersionFromRequest (tx : TransactionPayload) : Except String Nat :=
  match tx.network with
  | none => .ok TransactionVersion_Mainnet
  | some network =>
    if network.version = TransactionVersion_Mainnet ∨
       network.version = TransactionVersion_Testnet
    then .ok network.version
    else .error "Invalid network version provided"

/-- `UNAUTHORIZED_TX_REQUEST`. -/
def UNAUTHORIZED_TX_REQUEST : String :=
  "The transaction request provided is not signed by this wallet."

/-- The predicate of the `wallet.accounts.find` scan inside
`verifyTxRequest`: the account's derived app public key must equal the
token's declared signer key, and, when the payload declares an
`stxAddress`, the account's address derived under `txVersion` must equal
it. -/
def accountMatches (ops : CryptoOps) (tx : TransactionPayload) (txVersion : Nat)
    (appDomain : String) (account : Account) : Bool :=
  let appPrivateKey := ops.getAppPrivateKey account appDomain
  let appPublicKey := ops.getPublicKeyFromPrivate appPrivateKey
  if appPublicKey ≠ tx.publicKey then false
  else
    match tx.stxAddress with
    | none => true
    | some declared =>
      let accountStxAddress := ops.getAddressFromPrivateKey account.stxPrivateKey txVersion
      decide (declared = accountStxAddress)

/-- `verifyTxRequest`: decode the token, resolve the network version (which
throws on an unrecognized tag before any cryptographic work), verify the
ES256k signature against the declared public key, then scan the wallet's
accounts in order for one satisfying `accountMatches`; return the payload
on success and throw `UNAUTHORIZED_TX_REQUEST` when no account matches. -/
def verifyTxRequest (ops : CryptoOps) (requestToken : String) (wallet : Wallet)
    (appDomain : String) : Except String TransactionPayload :=
  let tx := ops.decodeTokenPayload requestToken
  match getTransactionVersionFromRequest tx with
  | .error e => .error e
  | .ok txVersion =>
    if ops.verifyES256k tx.publicKey requestToken = false then
      .error "Transaction request is not signed"
    else
      match wallet.accounts.find? (accountMatches ops tx txVersion appDomain) with
      | none => .error UNAUTHORIZED_TX_REQUEST
      | some _ => .ok tx

/-! ### Submission orchestrator (`use-submit-stx-transaction.ts`) -/

/-- UI screen paths (only `HOME` is reached by the hook). -/
inductive ScreenPath where
  | HOME
  | other (route : String)
deriving DecidableEq, Repr

/-- Observable effects performed by the handler returned by
`useHandleSubmitTransaction`, in execution order. -/
inductive Effect where
  | setIsLoading
  | broadcastAttempt
  | toastError (msg : String)
  | toastSuccess (msg : String)
  | doSetLatestNonce
  | revalidate
  | onClose
  | setIsIdle
  | doChangeScreen (path : ScreenPath)
deriving DecidableEq, Repr

/-- `getErrorMessage`: fixed user-facing message per classified broadcast
rejection reason. -/
def getErrorMessage (reason : String) : String :=
  if reason = "ConflictingNonceInMempool" then "Nonce conflict, try again soon."
  else if reason = "BadNonce" then "Incorrect nonce."
  else if reason = "NotEnoughFunds" then "Not enough funds."
  else if reason = "FeeTooLow" then "Fee is too low."
  else "Something went wrong"

/-- Outcome of `broadcastTransaction(transaction, stacksNetwork)`: a plain
string transaction id on acceptance, a rejection object carrying a
`reason`, or a thrown exception. -/
inductive BroadcastOutcome where
  | success (txid : String)
  | rejected (reason : String)
  | throws
deriving DecidableEq, Repr

/-- Whether an awaited bookkeeping step (`doSetLatestNonce`, `revalidate`)
returns normally or throws. -/
inductive StepOutcome where
  | ok
  | throws
deriving DecidableEq, Repr

/-- The handler returned by `useHandleSubmitTransaction`, as the ordered
trace of effects it performs: set the loading flag; when a transaction is
present, attempt broadcast inside `try`, toasting a classified error on a
rejection object, toasting success after nonce bookkeeping and
revalidation, and toasting a generic error when any awaited step throws;
then unconditionally close, clear the loading flag and navigate home. -/
def useHandleSubmitTransaction (transaction : Option StacksTransaction)
    (broadcast : BroadcastOutcome) (nonceStep revalidateStep : StepOutcome) :
    List Effect :=
  Effect.setIsLoading ::
  (match transaction with
   | none => []
   | some _ =>
     Effect.broadcastAttempt ::
     match broadcast with
     | .throws => [Effect.toastError "Something went wrong"]
     | .rejected reason => [Effect.toastError (getErrorMessage reason)]
     | .success _ =>
       Effect.doSetLatestNonce ::
       match nonceStep with
       | .throws => [Effect.toastError "Something went wrong"]
       | .ok =>
         Effect.revalidate ::
         match revalidateStep with
         | .throws => [Effect.toastError "Something went wrong"]
         | .ok => [Effect.toastSuccess "Transaction submitted!"]) ++
  [Effect.onClose, Effect.setIsIdle, Effect.doChangeScreen ScreenPath.HOME]

/-! ### Shared concrete instances and helper lemmas -/

/-- A concrete instantiation of the external serialization library, used to
evaluate witnesses. -/
def libDefault : ExternalLib :=
  { deserializePostCondition := fun r => { amount? := none, rest := hexEncode r.buffer }
  , deserializeCV := fun bytes => ClarityValue.ofBytes bytes }

/-- A base payload for concrete witnesses; individual fields are
overridden per witness. -/
def basePayload : TransactionPayload :=
  { txType := ""
  , publicKey := ""
  , stxAddress := none
  , network := none
  , contractName := "counter"
  , contractAddress := "ST1PQHQKV0RJXZFY1DGX8MNSNYVE3VGZJSRTPGZGM"
  , functionName := "increment"
  , functionArgs := []
  , codeBody := "(define-public (f) (ok true))"
  , recipient := "ST2CY5V39NHDPWSXMW9QDT3HC3GD6Q6XX4CFRK9AG"
  , amount := "100"
  , memo := "memo"
  , postConditionMode := none
  , postConditions := none }

/-- Any transaction built by `generateTransaction` carries the resolved
network: the substitution happens before construction, and every
construction path stores the resolved descriptor. -/
theorem builtTx_network_eq_resolveNetwork (lib : ExternalLib)
    (txData : TransactionPayload) (senderKey : String) (nonce : Option Nat)
    (tx : BuiltTx) (h : generateTransaction lib txData senderKey nonce = .ok tx) :
    tx.network = resolveNetwork txData.network := by
  unfold generateTransaction at h
  dsimp only at h
  split_ifs at h with h1 h2 h3
  · simp only [Except.ok.injEq] at h
    subst h
    rfl
  · simp only [Except.ok.injEq] at h
    subst h
    rfl
  · simp only [Except.ok.injEq] at h
    subst h
    rfl

/-! ### Claim theorems -/

/-- C4: `generateTransaction` dispatches exactly on the transaction kind
tag: a `ContractCall` tag invokes only the contract-call construction path,
a `ContractDeploy` tag only the contract-deploy path, an `STXTransfer` tag
only the token-transfer path, and every other tag fails with an
`Invalid Transaction Type` error naming the offending tag. -/
theorem generateTransaction_dispatch (lib : ExternalLib)
    (txData : TransactionPayload) (senderKey : String) (nonce : Option Nat) :
    (txData.txType = TransactionTypes_ContractCall →
      ∃ opts, generateTransaction lib txData senderKey nonce = .ok (.contractCall opts)) ∧
    (txData.txType = TransactionTypes_ContractDeploy →
      ∃ opts, generateTransaction lib txData senderKey nonce = .ok (.contractDeploy opts)) ∧
    (txData.txType = TransactionTypes_STXTransfer →
      ∃ opts, generateTransaction lib txData senderKey nonce = .ok (.stxTransfer opts)) ∧
    (txData.txType ≠ TransactionTypes_ContractCall →
      txData.txType ≠ TransactionTypes_ContractDeploy →
      txData.txType ≠ TransactionTypes_STXTransfer →
      generateTransaction lib txData senderKey nonce =
        .error ("Invalid Transaction Type: " ++ txData.txType)) := by
  refine ⟨fun h => ?_, fun h => ?_, fun h => ?_, fun h1 h2 h3 => ?_⟩
  · exact ⟨_, by
      unfold generateTransaction generateContractCallTx
      dsimp only
      rw [if_pos h]⟩
  · exact ⟨_, by
      unfold generateTransaction generateContractDeployTx
      dsimp only
      rw [if_neg (by rw [h]; decide), if_pos h]⟩
  · exact ⟨_, by
      unfold generateTransaction generateSTXTransferTx
      dsimp only
      rw [if_neg (by rw [h]; decide), if_neg (by rw [h]; decide), if_pos h]⟩
  · unfold generateTransaction
    dsimp only
    rw [if_neg h1, if_neg h2, if_neg h3]

/-- C4 witness: concrete payloads exercising all four dispatch branches. -/
theorem generateTransaction_dispatch_witness :
    (∃ opts, generateTransaction libDefault
      { basePayload with txType := "contract_call" } "key" none =
      .ok (.contractCall opts)) ∧
    (∃ opts, generateTransaction libDefault
      { basePayload with txType := "smart_contract" } "key" none =
      .ok (.contractDeploy opts)) ∧
    (∃ opts, generateTransaction libDefault
      { basePayload with txType := "token_transfer" } "key" none =
      .ok (.stxTransfer opts)) ∧
    generateTransaction libDefault
      { basePayload with txType := "nft_transfer" } "key" none =
      .error "Invalid Transaction Type: nft_transfer" := by
  refine ⟨?_, ?_, ?_, ?_⟩
  · exact (generateTransaction_dispatch libDefault
      { basePayload with txType := "contract_call" } "key" none).1 rfl
  · exact (generateTransaction_dispatch libDefault
      { basePayload with txType := "smart_contract" } "key" none).2.1 rfl
  · exact (generateTransaction_dispatch libDefault
      { basePayload with txType := "token_transfer" } "key" none).2.2.1 rfl
  · exact (generateTransaction_dispatch libDefault
      { basePayload with txType := "nft_transfer" } "key" none).2.2.2
      (by decide) (by decide) (by decide)

/-- C5: when the broadcast endpoint accepts the transaction and the success
body is the quoted transaction id string `"abc123"` (which the transport's
JSON parsing strips to `abc123`), `finishTransaction` returns
`txId = "0xabc123"` and `txRaw = "0x"` followed by the hex encoding of the
transaction's serialized bytes. -/
theorem finishTransaction_success_quoted_txid (tx : StacksTransaction) (s : String)
    (h : jsonParseStringBody "\"abc123\"" = some s) :
    finishTransaction tx { ok := true, json := .str s } =
      .ok { txId := "0xabc123", txRaw := "0x" ++ hexEncode tx.serialized } := by
  have habc : jsonParseStringBody "\"abc123\"" = some "abc123" := by decide
  rw [habc] at h
  have hs : s = "abc123" := by
    injection h with h
    exact h.symm
  subst hs
  have hid : jsReplaceFirst "abc123" '"' = "abc123" := by decide
  simp [finishTransaction, hid]

/-- C5 witness: a concrete transaction with serialized bytes `[1, 2]`. -/
theorem finishTransaction_success_quoted_txid_witness :
    finishTransaction ⟨[1, 2]⟩ { ok := true, json := .str "abc123" } =
      .ok { txId := "0xabc123", txRaw := "0x0102" } := by
  have h := finishTransaction_success_quoted_txid ⟨[1, 2]⟩ "abc123" (by decide)
  exact h.trans (by rfl)

/-- The message of the error thrown by `finishTransaction` on a non-ok
response: the composed `error - reason` string when the body carries a
truthy `error` field, the generic message otherwise. -/
def rejectionMessage (res : RpcResponse) : String :=
  match res.json with
  | .obj (some error) reason =>
    if error ≠ "" then error ++ " - " ++ jsFieldToString reason
    else "Unable to submit transaction"
  | _ => "Unable to submit transaction"

/-- A concrete signed transaction for the C6 counterexample. -/
def txC6 : StacksTransaction := { serialized := [1, 2, 3] }

/-- A concrete structured rejection response for the C6 counterexample. -/
def resC6 : RpcResponse :=
  { ok := false, json := .obj (some "RejectTransaction") (some "BadNonce") }

/-- C6 counterexample: on a structured rejection, `finishTransaction`
throws an error carrying only the composed `error - reason` message; the
`0x`-prefixed hex of the serialized bytes (`0x010203`) is not returned to
the caller, and does not even occur in the error message. -/
theorem finishTransaction_rejection_drops_rawhex :
    finishTransaction txC6 resC6 = .error "RejectTransaction - BadNonce" ∧
    (finishTransaction txC6 resC6).toOption = none ∧
    ¬ ("0x010203".data <:+: "RejectTransaction - BadNonce".data) := by
  refine ⟨by rfl, by rfl, by decide⟩

/-- C6 amended: the canonical serialized byte form is returned (as the
`0x`-prefixed `txRaw` field) only on the success path; on a non-ok
response, `finishTransaction` throws an error carrying only the composed
or generic rejection message. -/
theorem finishTransaction_rawhex_on_success_only (tx : StacksTransaction)
    (res : RpcResponse) :
    (∀ s, res.ok = true → res.json = .str s →
      finishTransaction tx res =
        .ok { txId := "0x" ++ jsReplaceFirst s '"'
            , txRaw := "0x" ++ hexEncode tx.serialized }) ∧
    (res.ok = false →
      finishTransaction tx res = .error (rejectionMessage res)) := by
  constructor
  · intro s hok hjson
    simp [finishTransaction, hok, hjson]
  · intro hok
    obtain ⟨rok, rjson⟩ := res
    simp only at hok
    subst hok
    cases rjson with
    | str s => simp [finishTransaction, rejectionMessage]
    | obj eField rField =>
      cases eField with
      | none => simp [finishTransaction, rejectionMessage]
      | some e =>
        by_cases he : e = ""
        · simp [finishTransaction, rejectionMessage, he]
        · simp [finishTransaction, rejectionMessage, he]

/-- C6 amended witness: success returns the raw hex, rejection returns only
the composed message. -/
theorem finishTransaction_rawhex_on_success_only_witness :
    finishTransaction txC6 { ok := true, json := .str "abc" } =
      .ok { txId := "0xabc", txRaw := "0x010203" } ∧
    finishTransaction txC6 resC6 = .error "RejectTransaction - BadNonce" := by
  constructor
  · have h := (finishTransaction_rawhex_on_success_only txC6
      { ok := true, json := .str "abc" }).1 "abc" rfl rfl
    exact h.trans (by rfl)
  · have h := (finishTransaction_rawhex_on_success_only txC6 resC6).2 rfl
    exact h.trans (by rfl)

/-- A structured post-condition carrying a falsy `amount` field (the JS
number `0`), for the C7 counterexample. -/
def pcFalsyAmount : PostConditionObj :=
  { amount? := some (PCAmount.num 0), rest := "stx-postcondition" }

/-- C7 counterexample: a structured entry that carries an `amount` field
whose value is the number `0` is returned unchanged by `getPostConditions`
— its amount is not replaced by a base-16 big integer — because the code
guards the replacement with JS truthiness
(`'amount' in postCondition && postCondition.amount`). -/
theorem getPostConditions_falsy_amount_unchanged :
    getPostConditions libDefault (some [PostConditionEntry.obj pcFalsyAmount]) =
      some [pcFalsyAmount] ∧
    pcFalsyAmount.amount? = some (PCAmount.num 0) ∧
    PCAmount.num 0 ≠ PCAmount.bn (bnBase16 (PCAmount.num 0)) := by
  refine ⟨by rfl, by rfl, by decide⟩

/-- C7 amended: `getPostConditions` maps each entry as follows: a hex
string is deserialized via a binary reader positioned at offset 0; a
structured object carrying a truthy (non-zero, non-empty) `amount` field
has its amount replaced by an arbitrary-precision integer parsed in base
16; a structured object without an `amount` field — or whose `amount` is
falsy — is returned unchanged. -/
theorem getPostConditions_normalization (lib : ExternalLib)
    (pcs : List PostConditionEntry) :
    getPostConditions lib (some pcs) = some (pcs.map (normalizePostCondition lib)) ∧
    (∀ s, normalizePostCondition lib (.hexStr s) =
      lib.deserializePostCondition { buffer := bufferFromHex s, offset := 0 }) ∧
    (∀ pc a, pc.amount? = some a → a.truthy = true →
      normalizePostCondition lib (.obj pc) =
        { pc with amount? := some (.bn (bnBase16 a)) }) ∧
    (∀ pc, pc.amount? = none → normalizePostCondition lib (.obj pc) = pc) ∧
    (∀ pc a, pc.amount? = some a → a.truthy = false →
      normalizePostCondition lib (.obj pc) = pc) := by
  refine ⟨rfl, fun s => rfl, fun pc a ha ht => ?_, fun pc ha => ?_, fun pc a ha ht => ?_⟩
  · simp [normalizePostCondition, ha, ht]
  · simp [normalizePostCondition, ha]
  · simp [normalizePostCondition, ha, ht]

/-- C7 witness: each normalization case evaluated at a concrete entry. -/
theorem getPostConditions_normalization_witness :
    normalizePostCondition libDefault (.hexStr "01ff") =
      libDefault.deserializePostCondition { buffer := bufferFromHex "01ff", offset := 0 } ∧
    normalizePostCondition libDefault
        (.obj { amount? := some (PCAmount.str "10"), rest := "ft" }) =
      { amount? := some (PCAmount.bn 16), rest := "ft" } ∧
    normalizePostCondition libDefault (.obj { amount? := none, rest := "nft" }) =
      { amount? := none, rest := "nft" } ∧
    normalizePostCondition libDefault (.obj pcFalsyAmount) = pcFalsyAmount := by
  have h := getPostConditions_normalization libDefault []
  refine ⟨h.2.1 "01ff", ?_, h.2.2.2.1 { amount? := none, rest := "nft" } rfl,
    h.2.2.2.2 pcFalsyAmount (PCAmount.num 0) rfl (by decide)⟩
  have h2 := h.2.2.1 { amount? := some (PCAmount.str "10"), rest := "ft" }
    (PCAmount.str "10") rfl (by decide)
  exact h2.trans (by rfl)

/-- A custom testnet-tagged network descriptor without the fee-estimate
capability, for the C8 witness. -/
def netTestnetNoCap : Network :=
  { version := TransactionVersion_Testnet
  , hasFeeEstimateApi := false
  , coreApiUrl := "http://localhost:3999" }

/-- C8: when a payload carries a network descriptor with the Testnet
version tag and no fee-estimate capability, every transaction built by
`generateTransaction` is constructed with the default `StacksTestnet`
object substituted for it; when the descriptor exposes the capability, it
is passed through to construction unmodified. -/
theorem generateTransaction_network_substitution (lib : ExternalLib)
    (txData : TransactionPayload) (n : Network) (senderKey : String)
    (nonce : Option Nat) (hn : txData.network = some n) :
    (n.version = TransactionVersion_Testnet → n.hasFeeEstimateApi = false →
      ∀ tx, generateTransaction lib txData senderKey nonce = .ok tx →
        tx.network = some StacksTestnet) ∧
    (n.hasFeeEstimateApi = true →
      ∀ tx, generateTransaction lib txData senderKey nonce = .ok tx →
        tx.network = some n) := by
  constructor
  · intro hv hcap tx htx
    rw [builtTx_network_eq_resolveNetwork lib txData senderKey nonce tx htx, hn]
    unfold resolveNetwork networkFeeCapability defaultNetworkFor
    simp [hcap, hv, TransactionVersion_Mainnet, TransactionVersion_Testnet]
  · intro hcap tx htx
    rw [builtTx_network_eq_resolveNetwork lib txData senderKey nonce tx htx, hn]
    unfold resolveNetwork networkFeeCapability
    simp [hcap]

/-- The concrete transaction built in the C8 witness. -/
def txC8 : BuiltTx :=
  generateSTXTransferTx libDefault
    { basePayload with txType := "token_transfer", network := some StacksTestnet }
    "key" none

/-- The concrete transaction built in the second (pass-through) C8 witness
case. -/
def txC8pass : BuiltTx :=
  generateSTXTransferTx libDefault
    { basePayload with txType := "token_transfer", network := some StacksMainnet }
    "key" none

/-- C8 witness: a testnet-tagged capability-less descriptor is replaced by
`StacksTestnet`; a descriptor with the capability (here `StacksMainnet`
itself) is passed through unmodified. -/
theorem generateTransaction_network_substitution_witness :
    generateTransaction libDefault
      { basePayload with txType := "token_transfer", network := some netTestnetNoCap }
      "key" none = .ok txC8 ∧
    txC8.network = some StacksTestnet ∧
    generateTransaction libDefault
      { basePayload with txType := "token_transfer", network := some StacksMainnet }
      "key" none = .ok txC8pass ∧
    txC8pass.network = some StacksMainnet := by
  have hgen : generateTransaction libDefault
      { basePayload with txType := "token_transfer", network := some netTestnetNoCap }
      "key" none = .ok txC8 := by rfl
  have hgen2 : generateTransaction libDefault
      { basePayload with txType := "token_transfer", network := some StacksMainnet }
      "key" none = .ok txC8pass := by rfl
  refine ⟨hgen, ?_, hgen2, ?_⟩
  · exact (generateTransaction_network_substitution libDefault
      { basePayload with txType := "token_transfer", network := some netTestnetNoCap }
      netTestnetNoCap "key" none rfl).1 rfl rfl txC8 hgen
  · exact (generateTransaction_network_substitution libDefault
      { basePayload with txType := "token_transfer", network := some StacksMainnet }
      StacksMainnet "key" none rfl).2 rfl txC8pass hgen2

/-- C10: for a payload whose network field is absent, `generateTransaction`
substitutes the default `StacksTestnet` object — the `StacksMainnet`
default is chosen only when a descriptor is present whose version equals
the Mainnet tag — whereas `getTransactionVersionFromRequest` (used by
`verifyTxRequest` for address derivation) treats the same absent network
as the Mainnet version. -/
theorem absent_network_defaults_diverge (lib : ExternalLib)
    (txData : TransactionPayload) (senderKey : String) (nonce : Option Nat)
    (h : txData.network = none) :
    (∀ tx, generateTransaction lib txData senderKey nonce = .ok tx →
      tx.network = some StacksTestnet) ∧
    (∀ net : Option Network, defaultNetworkFor net = StacksMainnet ↔
      ∃ n, net = some n ∧ n.version = TransactionVersion_Mainnet) ∧
    getTransactionVersionFromRequest txData = .ok TransactionVersion_Mainnet := by
  refine ⟨fun tx htx => ?_, fun net => ?_, ?_⟩
  · rw [builtTx_network_eq_resolveNetwork lib txData senderKey nonce tx htx, h]
    rfl
  · unfold defaultNetworkFor
    constructor
    · intro hm
      by_cases hc : net.map Network.version = some TransactionVersion_Mainnet
      · cases net with
        | none => simp at hc
        | some n =>
          refine ⟨n, rfl, ?_⟩
          simpa using hc
      · rw [if_neg hc] at hm
        exact absurd hm (by decide)
    · rintro ⟨n, rfl, hv⟩
      rw [if_pos (by simp [hv])]
  · unfold getTransactionVersionFromRequest
    rw [h]

/-- The concrete transaction built in the C10 witness. -/
def txC10 : BuiltTx :=
  generateSTXTransferTx libDefault
    { basePayload with txType := "token_transfer", network := some StacksTestnet }
    "key" none

/-- C10 witness: a concrete payload without a network field is built
against `StacksTestnet`, while its verification version resolves to
Mainnet. -/
theorem absent_network_defaults_diverge_witness :
    generateTransaction libDefault
      { basePayload with txType := "token_transfer", network := none }
      "key" none = .ok txC10 ∧
    txC10.network = some StacksTestnet ∧
    getTransactionVersionFromRequest
      { basePayload with txType := "token_transfer", network := none } =
      .ok TransactionVersion_Mainnet ∧
    (defaultNetworkFor (some StacksMainnet) = StacksMainnet ↔
      ∃ n, (some StacksMainnet = some n ∧ n.version = TransactionVersion_Mainnet)) := by
  have hgen : generateTransaction libDefault
      { basePayload with txType := "token_transfer", network := none }
      "key" none = .ok txC10 := by rfl
  have h := absent_network_defaults_diverge libDefault
    { basePayload with txType := "token_transfer", network := none } "key" none rfl
  exact ⟨hgen, h.1 txC10 hgen, h.2.2, h.2.1 (some StacksMainnet)⟩

/-- C9: the handler returned by the submission orchestrator — for every
combination of transaction presence, broadcast outcome (success, rejection
object, thrown exception) and bookkeeping outcome (nonce update or
revalidation throwing) — ends by invoking the close callback, clearing the
loading flag, and transitioning the UI to the home screen, in that order. -/
theorem useHandleSubmitTransaction_always_cleans_up
    (transaction : Option StacksTransaction) (broadcast : BroadcastOutcome)
    (nonceStep revalidateStep : StepOutcome) :
    ∃ mid, useHandleSubmitTransaction transaction broadcast nonceStep revalidateStep =
      Effect.setIsLoading :: mid ++
        [Effect.onClose, Effect.setIsIdle, Effect.doChangeScreen ScreenPath.HOME] := by
  unfold useHandleSubmitTransaction
  exact ⟨_, rfl⟩

/-- C1: when the payload declares a target `stxAddress`, a successful
verification pins down an account in the wallet whose derived app public
key equals the token's signer key AND whose address derived under the
resolved network version equals the declared target; moreover any account
whose derived address differs from the target fails the scan predicate
(it is skipped and cannot authorize the request). -/
theorem verifyTxRequest_address_gate (ops : CryptoOps) (requestToken : String)
    (wallet : Wallet) (appDomain : String) (target : String) (p : TransactionPayload)
    (haddr : (ops.decodeTokenPayload requestToken).stxAddress = some target)
    (hok : verifyTxRequest ops requestToken wallet appDomain = .ok p) :
    ∃ v, getTransactionVersionFromRequest (ops.decodeTokenPayload requestToken) = .ok v ∧
      (∃ account ∈ wallet.accounts,
        ops.getPublicKeyFromPrivate (ops.getAppPrivateKey account appDomain) =
          (ops.decodeTokenPayload requestToken).publicKey ∧
        ops.getAddressFromPrivateKey account.stxPrivateKey v = target) ∧
      (∀ account : Account,
        ops.getAddressFromPrivateKey account.stxPrivateKey v ≠ target →
        accountMatches ops (ops.decodeTokenPayload requestToken) v appDomain account
          = false) := by
  unfold verifyTxRequest at hok
  dsimp only at hok
  split at hok
  · exact Except.noConfusion hok
  · next v heq =>
    split_ifs at hok with hsig
    split at hok
    · exact Except.noConfusion hok
    · next acc hfind =>
      have hmem := List.mem_of_find?_eq_some hfind
      have hmatch := List.find?_some hfind
      refine ⟨v, heq, ⟨acc, hmem, ?_, ?_⟩, ?_⟩
      · by_cases hkey : ops.getPublicKeyFromPrivate (ops.getAppPrivateKey acc appDomain)
            = (ops.decodeTokenPayload requestToken).publicKey
        · exact hkey
        · unfold accountMatches at hmatch
          dsimp only at hmatch
          rw [if_pos hkey] at hmatch
          exact absurd hmatch (by simp)
      · unfold accountMatches at hmatch
        dsimp only at hmatch
        rw [haddr] at hmatch
        dsimp only at hmatch
        by_cases hkey : ops.getPublicKeyFromPrivate (ops.getAppPrivateKey acc appDomain)
            ≠ (ops.decodeTokenPayload requestToken).publicKey
        · rw [if_pos hkey] at hmatch
          exact absurd hmatch (by simp)
        · rw [if_neg hkey] at hmatch
          exact (of_decide_eq_true hmatch).symm
      · intro account hne
        unfold accountMatches
        dsimp only
        rw [haddr]
        dsimp only
        by_cases hkey : ops.getPublicKeyFromPrivate (ops.getAppPrivateKey account appDomain)
            ≠ (ops.decodeTokenPayload requestToken).publicKey
        · rw [if_pos hkey]
        · rw [if_neg hkey]
          exact decide_eq_false (fun hEq => hne hEq.symm)

/-- A concrete account for the verifier witnesses. -/
def acctC1 : Account := { stxPrivateKey := "sk1", appsKeyMaterial := "k1" }

/-- A concrete request payload declaring a target address, for the C1
witness. -/
def payloadC1 : TransactionPayload :=
  { basePayload with
      txType := "token_transfer"
    , publicKey := "pub(k1/app.example)"
    , stxAddress := some "addr(sk1,0)" }

/-- Concrete crypto oracles for the C1 witness: derivation is string
tagging, the signature always verifies, and the token decodes to
`payloadC1`. -/
def opsC1 : CryptoOps :=
  { getAppPrivateKey := fun a d => a.appsKeyMaterial ++ "/" ++ d
  , getPublicKeyFromPrivate := fun k => "pub(" ++ k ++ ")"
  , getAddressFromPrivateKey := fun k v => "addr(" ++ k ++ "," ++ Nat.repr v ++ ")"
  , decodeTokenPayload := fun _ => payloadC1
  , verifyES256k := fun _ _ => true }

/-- A concrete single-account wallet for the verifier witnesses. -/
def walletC1 : Wallet := { accounts := [acctC1] }

/-- C1 witness: a concrete token verified by the concrete wallet, whose
single account passes both the app-key and the address gate. -/
theorem verifyTxRequest_address_gate_witness :
    payloadC1.stxAddress = some "addr(sk1,0)" ∧
    (∃ v, getTransactionVersionFromRequest (opsC1.decodeTokenPayload "token") = .ok v ∧
      (∃ account ∈ walletC1.accounts,
        opsC1.getPublicKeyFromPrivate (opsC1.getAppPrivateKey account "app.example") =
          (opsC1.decodeTokenPayload "token").publicKey ∧
        opsC1.getAddressFromPrivateKey account.stxPrivateKey v = "addr(sk1,0)") ∧
      (∀ account : Account,
        opsC1.getAddressFromPrivateKey account.stxPrivateKey v ≠ "addr(sk1,0)" →
        accountMatches opsC1 (opsC1.decodeTokenPayload "token") v "app.example" account
          = false)) :=
  ⟨rfl, verifyTxRequest_address_gate opsC1 "token" walletC1 "app.example"
    "addr(sk1,0)" payloadC1 rfl (by rfl)⟩

/-- C2: when the network version resolves, the token's signature verifies,
and no wallet account satisfies the matching predicate (app public key,
and target address when declared), `verifyTxRequest` fails with exactly
the fixed unauthorized message. -/
theorem verifyTxRequest_unauthorized (ops : CryptoOps) (requestToken : String)
    (wallet : Wallet) (appDomain : String) (v : Nat)
    (hv : getTransactionVersionFromRequest (ops.decodeTokenPayload requestToken) = .ok v)
    (hsig : ops.verifyES256k (ops.decodeTokenPayload requestToken).publicKey requestToken
      = true)
    (hno : ∀ a ∈ wallet.accounts,
      accountMatches ops (ops.decodeTokenPayload requestToken) v appDomain a = false) :
    verifyTxRequest ops requestToken wallet appDomain =
      .error "The transaction request provided is not signed by this wallet." := by
  unfold verifyTxRequest
  dsimp only
  rw [hv]
  dsimp only
  rw [if_neg (by simp [hsig])]
  have hfind : List.find?
      (accountMatches ops (ops.decodeTokenPayload requestToken) v appDomain)
      wallet.accounts = none := by
    rw [List.find?_eq_none]
    intro a ha
    simp [hno a ha]
  rw [hfind]
  rfl

/-- A concrete request payload whose signer key matches no wallet account,
for the C2 witness. -/
def payloadC2 : TransactionPayload :=
  { basePayload with txType := "token_transfer", publicKey := "pub(other)" }

/-- Concrete crypto oracles for the C2 witness: the signature verifies but
the declared signer key is derivable from no account. -/
def opsC2 : CryptoOps :=
  { getAppPrivateKey := fun a d => a.appsKeyMaterial ++ "/" ++ d
  , getPublicKeyFromPrivate := fun k => "pub(" ++ k ++ ")"
  , getAddressFromPrivateKey := fun k v => "addr(" ++ k ++ "," ++ Nat.repr v ++ ")"
  , decodeTokenPayload := fun _ => payloadC2
  , verifyES256k := fun _ _ => true }

/-- C2 witness: a verified token matched against a single-account wallet
whose account derives a different app public key. -/
theorem verifyTxRequest_unauthorized_witness :
    verifyTxRequest opsC2 "token" walletC1 "app.example" =
      .error "The transaction request provided is not signed by this wallet." :=
  verifyTxRequest_unauthorized opsC2 "token" walletC1 "app.example"
    TransactionVersion_Mainnet rfl rfl (by decide)

/-- C3: when the payload's network descriptor carries a version that is
neither the Mainnet nor the Testnet tag, `verifyTxRequest` fails with the
invalid-network-version error for EVERY behaviour of the signature
verifier and of the key-derivation oracles — i.e. the failure happens
before any cryptographic signature verification is consulted. -/
theorem verifyTxRequest_invalid_network_fails_first (ops : CryptoOps)
    (requestToken : String) (wallet : Wallet) (appDomain : String) (n : Network)
    (hn : (ops.decodeTokenPayload requestToken).network = some n)
    (h1 : n.version ≠ TransactionVersion_Mainnet)
    (h2 : n.version ≠ TransactionVersion_Testnet) :
    ∀ vfy getApp getPub getAddr,
      verifyTxRequest ⟨getApp, getPub, getAddr, ops.decodeTokenPayload, vfy⟩
        requestToken wallet appDomain = .error "Invalid network version provided" := by
  intro vfy getApp getPub getAddr
  have hv : getTransactionVersionFromRequest (ops.decodeTokenPayload requestToken) =
      .error "Invalid network version provided" := by
    unfold getTransactionVersionFromRequest
    rw [hn]
    dsimp only
    rw [if_neg]
    rintro (h | h)
    · exact h1 h
    · exact h2 h
  unfold verifyTxRequest
  dsimp only
  rw [hv]

/-- A network descriptor with an unrecognized version tag, for the C3
witness. -/
def netC3 : Network :=
  { version := 99, hasFeeEstimateApi := false, coreApiUrl := "http://example.net" }

/-- A concrete request payload carrying the unrecognized network, for the
C3 witness. -/
def payloadC3 : TransactionPayload :=
  { basePayload with txType := "token_transfer", network := some netC3 }

/-- Concrete crypto oracles for the C3 witness. -/
def opsC3 : CryptoOps :=
  { getAppPrivateKey := fun a d => a.appsKeyMaterial ++ "/" ++ d
  , getPublicKeyFromPrivate := fun k => "pub(" ++ k ++ ")"
  , getAddressFromPrivateKey := fun k v => "addr(" ++ k ++ "," ++ Nat.repr v ++ ")"
  , decodeTokenPayload := fun _ => payloadC3
  , verifyES256k := fun _ _ => true }

/-- C3 witness: the same invalid-version token fails identically whether
the signature verifier would accept or reject. -/
theorem verifyTxRequest_invalid_network_fails_first_witness :
    verifyTxRequest { opsC3 with verifyES256k := fun _ _ => true }
      "token" walletC1 "app.example" = .error "Invalid network version provided" ∧
    verifyTxRequest { opsC3 with verifyES256k := fun _ _ => false }
      "token" walletC1 "app.example" = .error "Invalid network version provided" := by
  have h := verifyTxRequest_invalid_network_fails_first opsC3 "token" walletC1
    "app.example" netC3 rfl (by decide) (by decide)
  exact ⟨h (fun _ _ => true) opsC3.getAppPrivateKey opsC3.getPublicKeyFromPrivate
      opsC3.getAddressFromPrivateKey,
    h (fun _ _ => false) opsC3.getAppPrivateKey opsC3.getPublicKeyFromPrivate
      opsC3.getAddressFromPrivateKey⟩
